import Mathlib

set_option maxRecDepth 8000

/-!
# Verification of the honeyclean profiling core

A shallow embedding, in Lean 4, of the analyzer pipeline of the
`honeyclean` library: the recommendation engine
(`analyzers/recommendations.py`), type inference
(`analyzers/type_inference.py`), statistical analysis
(`analyzers/statistical.py`), type conversion
(`analyzers/data_conversion.py`), enhanced ID/uniqueness analysis
(`analyzers/enhanced.py`), and the per-column orchestration
(`profiler.py`).  Pure functions are translated branch by branch; pandas
and scipy primitives are modelled by recording, per column or per cell,
the observable outcome the source inspects (dtype flags, per-cell parse
success, exception outcomes as `Except`).
-/

namespace Honeyclean

/-! ## Recommendation engine (`analyzers/recommendations.py`) -/

/-- Tags for the dataset-level recommendation (zh, en) string pairs built by
`DataCleaningRecommendations.get_general_recommendations`.  Each constructor
stands for the bilingual pair appended in one branch of the source. -/
inductive GeneralRec
  /-- "📏 Small dataset. Consider collecting more data for robust analysis." -/
  | smallDataset
  /-- "📊 Large dataset. Consider sampling or chunking for memory efficiency." -/
  | largeDataset
  /-- "💾 High memory usage (... MB). Consider optimizing data types ..." -/
  | highMemory
  /-- "🔄 Found ... duplicate rows. Consider removing duplicates." -/
  | removeDuplicates
  /-- "Error in general analysis: ..." (the `except` branch). -/
  | generalError (msg : String)
deriving DecidableEq, Repr

/-- The attributes of the pandas DataFrame that
`get_general_recommendations` reads: `len(df)`,
`df.memory_usage(deep=True).sum() / 1024 / 1024` (megabytes, as an exact
rational), and `df.duplicated().sum()`. -/
structure DatasetView where
  len : Nat
  memoryMb : ℚ
  duplicateCount : Nat
deriving DecidableEq, Repr

/-- `DataCleaningRecommendations.get_general_recommendations`, translated
branch by branch from the source.  Faithful to the source: in the
`len(df) < 100` branch the zh/en strings are assigned to local variables
but `recommendations.append` is called only inside the
`elif len(df) > 1000000` branch, so the small-dataset pair is never
appended.  The `except` branch of the source (`GeneralRec.generalError`)
is unreachable in this pure model since none of the three computations
can raise. -/
def get_general_recommendations (df : DatasetView) : List GeneralRec :=
  let recs : List GeneralRec := []
  let recs := if df.len < 100 then recs
    else if df.len > 1000000 then recs ++ [GeneralRec.largeDataset]
    else recs
  let recs := if df.memoryMb > 1000 then recs ++ [GeneralRec.highMemory] else recs
  let recs := if df.duplicateCount > 0 then recs ++ [GeneralRec.removeDuplicates] else recs
  recs

/-- Tags for the per-branch (zh, en) recommendation pairs of
`DataCleaningRecommendations.get_numeric_recommendations`. -/
inductive NumericRec
  /-- "Analysis error: ..." -/
  | analysisError
  /-- "🔍 High missing values (...%). Consider imputation with median ..." -/
  | highMissing
  /-- "⚠️ Found ... outliers using Z-score method. ..." -/
  | zscoreOutliers
  /-- "📊 Found ... outliers using IQR method. ..." -/
  | iqrOutliers
  /-- "📈 High skewness (...). Consider log transformation ..." -/
  | highSkewness
  /-- "📉 Data is not normally distributed. ..." -/
  | notNormal
  /-- "📊 High variability (CV = ...). Consider normalization ..." -/
  | highVariability
deriving DecidableEq, Repr

/-- The fields of the numeric-analysis mapping that
`get_numeric_recommendations` reads through `analysis.get(key, default)`.
Each field holds the value `.get` returns (which is the stated default
when the key is absent from the dict), and `error` is `some msg` exactly
when the mapping contains an `"error"` key. -/
structure NumericAnalysisView where
  error : Option String
  missing_percentage : ℚ
  zscore_outliers : Nat
  iqr_outliers : Nat
  skewness : ℚ
  is_normal : Bool
  coefficient_of_variation : ℚ
deriving DecidableEq, Repr

/-- `DataCleaningRecommendations.get_numeric_recommendations`, translated
branch by branch: on an `"error"` key it short-circuits to the single
analysis-error pair; otherwise each threshold check appends at most one
recommendation, in source order. -/
def get_numeric_recommendations (analysis : NumericAnalysisView) : List NumericRec :=
  match analysis.error with
  | some _ => [NumericRec.analysisError]
  | none =>
    (if analysis.missing_percentage > 5 then [NumericRec.highMissing] else []) ++
    (if analysis.zscore_outliers > 0 then [NumericRec.zscoreOutliers] else []) ++
    (if analysis.iqr_outliers > 0 then [NumericRec.iqrOutliers] else []) ++
    (if |analysis.skewness| > 2 then [NumericRec.highSkewness] else []) ++
    (if analysis.is_normal = false then [NumericRec.notNormal] else []) ++
    (if analysis.coefficient_of_variation > 1 then [NumericRec.highVariability] else [])

/-! ## Type inference (`analyzers/type_inference.py`) -/

/-- `DataTypeInference._determine_suggested_type`, translated clause by
clause (the source tests `pandas_type in ['integer', 'floating']`, then
equality with `'datetime64'`, `'boolean'`, `'categorical'`, else
`'text'`; the confidence gate is `confidence > 0.8`). -/
def determine_suggested_type (pandas_type : String) (best_pattern : String)
    (confidence : ℚ) : String :=
  if confidence > 8/10 then best_pattern
  else if pandas_type = "integer" ∨ pandas_type = "floating" then "numeric"
  else if pandas_type = "datetime64" then "datetime"
  else if pandas_type = "boolean" then "boolean"
  else if pandas_type = "categorical" then "categorical"
  else "text"

/-! ## Statistical analysis (`analyzers/statistical.py`) -/

/-- The `count` / `missing_count` / `missing_percentage` entries of the
mappings returned by `StatisticalAnalyzer.analyze_numeric` and
`analyze_datetime`.  The further descriptive statistics the source adds
(mean, median, mode, std, quantiles, skewness, outlier and distribution
info for numeric; date ranges and distributions for datetime) do not
bear on any claim and are not modelled; the z-score outlier count of
`_detect_outliers` is modelled separately as `zscore_outlier_count`. -/
structure CountStats where
  count : Nat
  missing_count : Nat
  missing_percentage : ℚ
deriving DecidableEq, Repr

/-- `StatisticalAnalyzer.analyze_numeric` on a numeric pandas Series,
modelled as a list of cells (`some x` a value, `none` a null):
`clean_series = series.dropna()`; if it is empty, the error mapping
`{error: "No valid numeric values found"}` is returned; otherwise
`count = len(clean_series)`, `missing_count = series.isnull().sum()`,
`missing_percentage = missing_count / len(series) * 100`. -/
def analyze_numeric (series : List (Option ℚ)) : Except String CountStats :=
  let clean_series := series.filterMap id
  if clean_series.length = 0 then Except.error "No valid numeric values found"
  else Except.ok ⟨clean_series.length, series.countP (fun c => c.isNone),
    ((series.countP (fun c => c.isNone) : ℚ) / series.length) * 100⟩

/-- The entries of the mapping returned by
`StatisticalAnalyzer.analyze_categorical` that the claims touch (`mode`,
`value_counts`, `value_percentages` and `rare_categories` are not
modelled). -/
structure CategoricalStats where
  count : Nat
  missing_count : Nat
  missing_percentage : ℚ
  unique_count : Nat
  cardinality : ℚ
  is_high_cardinality : Bool
deriving DecidableEq, Repr

/-- `StatisticalAnalyzer.analyze_categorical`: no null-dropping and no
error guard; `count = len(series)` (nulls included),
`unique_count = series.nunique()` (nulls excluded),
`cardinality = nunique / len(series)`,
`is_high_cardinality = nunique > 50`. -/
def analyze_categorical {α : Type} [DecidableEq α]
    (series : List (Option α)) : CategoricalStats :=
  ⟨series.length,
   series.countP (fun c => c.isNone),
   ((series.countP (fun c => c.isNone) : ℚ) / series.length) * 100,
   (series.filterMap id).dedup.length,
   ((series.filterMap id).dedup.length : ℚ) / series.length,
   decide ((series.filterMap id).dedup.length > 50)⟩

/-- `StatisticalAnalyzer.analyze_datetime`.  The source first coerces the
raw series with `pd.to_datetime(series, errors="coerce")`; the input here
is that coerced series, cell by cell (`some ts` a parsed timestamp,
`none` a NaT coming from a null or unparseable raw cell — so
`missing_count` counts both).  If no cell parsed, the error mapping
`{error: "No valid datetime values found"}` is returned; otherwise
`count = len(clean_series)` over the null-dropped coerced series, and
the missing stats are relative to the full coerced series.  The date
range / distribution entries are not modelled (see `CountStats`). -/
def analyze_datetime (dt_series : List (Option ℚ)) : Except String CountStats :=
  let clean_series := dt_series.filterMap id
  if clean_series.length = 0 then Except.error "No valid datetime values found"
  else Except.ok ⟨clean_series.length, dt_series.countP (fun c => c.isNone),
    ((dt_series.countP (fun c => c.isNone) : ℚ) / dt_series.length) * 100⟩

/-- The z-score outlier count of `StatisticalAnalyzer._detect_outliers`,
with the threshold (3 in the source) exposed as a parameter `t`:
`len(series[np.abs(stats.zscore(series)) > t])`.  `stats.zscore`
standardizes with the population mean μ and population standard
deviation σ; for `t > 0` the test `|x − μ| / σ > t` holds exactly when
`(x − μ)² > t² · σ²`, which is the form used here so the definition
stays inside `ℚ` (when σ = 0 every value equals μ and neither
formulation flags anything, matching `nan > t` being false in numpy). -/
def zscore_outlier_count (series : List ℚ) (t : ℚ) : Nat :=
  let μ : ℚ := series.sum / (series.length : ℚ)
  let σ2 : ℚ := (series.map (fun x => (x - μ) ^ 2)).sum / (series.length : ℚ)
  series.countP (fun x => decide (t ^ 2 * σ2 < (x - μ) ^ 2))

/-- The z-score entry of `_detect_outliers` as the source fixes it, at
threshold 3. -/
def detect_outliers_zscore (series : List ℚ) : Nat :=
  zscore_outlier_count series 3

/-- For a list of optional cells, the nulls and the non-nulls together
account for the whole length. -/
theorem countP_none_add_length_filterMap {α : Type} (s : List (Option α)) :
    s.countP (fun c => c.isNone) + (s.filterMap id).length = s.length := by
  induction s with
  | nil => rfl
  | cons a t ih =>
    cases a <;> simp [List.countP_cons, List.filterMap_cons] <;> omega

/-! ## Type conversion (`analyzers/data_conversion.py`) -/

/-- One cell of a raw column, recording the parse outcomes
`DataTypeConverter` observes: `isNull` (pandas null, passed through
unchanged by both converters), `numericOk` (`pd.to_numeric` parses this
cell to a number), `datetimeOk` (`pd.to_datetime` with
`errors="coerce"` and format inference parses this cell). -/
structure Cell where
  isNull : Bool
  numericOk : Bool
  datetimeOk : Bool
deriving DecidableEq, Repr

/-- One DataFrame column as `DataTypeConverter` observes it: its name,
the dtype flags (`pd.api.types.is_float_dtype`,
`is_datetime64_any_dtype`, `is_numeric_dtype`), whether the coercing
calls `pd.to_numeric(..., errors="coerce")` /
`pd.to_datetime(..., errors="coerce")` themselves raise (the `except`
branches of the source), the outcome of each attempt of the strict
datetime loop (the 12 entries of `datetime_formats`: pandas inference
first, then 11 explicit formats), and the cells. -/
structure Column where
  name : String
  isFloatDtype : Bool
  isDatetimeDtype : Bool
  isNumericDtype : Bool
  toNumericCoerceRaises : Bool
  dtStrictAttempts : List Bool
  toDatetimeCoerceRaises : Bool
  cells : List Cell
deriving DecidableEq, Repr

/-- pandas dtype sanity: a float column is numeric, and a datetime
column is never numeric (`is_numeric_dtype` is false on datetime64). -/
def Column.WF (c : Column) : Prop :=
  (c.isFloatDtype = true → c.isNumericDtype = true) ∧
  ¬(c.isDatetimeDtype = true ∧ c.isNumericDtype = true)

instance (c : Column) : Decidable c.WF := by
  unfold Column.WF
  infer_instance

/-- `pd.to_numeric(column, errors="raise")` succeeds iff the coercing
variant would not raise either and every non-null cell parses (nulls
pass through as NaN without raising). -/
def strictNumericOk (c : Column) : Bool :=
  !c.toNumericCoerceRaises && c.cells.all (fun cl => cl.isNull || cl.numericOk)

/-- `valid_count = converted_series.notna().sum()` after numeric
coercion: the non-null cells that parsed. -/
def floatValidCount (c : Column) : Nat :=
  c.cells.countP (fun cl => !cl.isNull && cl.numericOk)

/-- `success_rate = valid_count / total_count if total_count > 0 else 0`
for the float path. -/
def floatSuccessRate (c : Column) : ℚ :=
  if 0 < c.cells.length then (floatValidCount c : ℚ) / (c.cells.length : ℚ) else 0

/-- The four float categories of the conversion report
(`convertible_float_columns`, `partially_convertible_float_columns`,
`unconvertible_float_columns`, `already_float_columns`). -/
inductive FloatCat
  | convertible
  | partConv
  | unconvertible
  | alreadyFloat
deriving DecidableEq, Repr

/-- `DataTypeConverter._process_float_conversion`, expressed as the float
category (if any) the column's name is recorded under: already-float
columns are recorded and skipped; datetime columns `return` without
touching any float list; strict numeric conversion yields convertible;
otherwise coercion is tried, partial convertibility requiring
`success_rate >= 0.9 and valid_count > 0`, with the `except` branch and
the failed threshold both yielding unconvertible. -/
def floatClass (c : Column) : Option FloatCat :=
  if c.isFloatDtype then some FloatCat.alreadyFloat
  else if c.isDatetimeDtype then none
  else if strictNumericOk c then some FloatCat.convertible
  else if c.toNumericCoerceRaises then some FloatCat.unconvertible
  else if 9/10 ≤ floatSuccessRate c ∧ 0 < floatValidCount c then some FloatCat.partConv
  else some FloatCat.unconvertible

/-- The strict datetime loop of `_process_datetime_conversion`: the
first of the 12 `pd.to_datetime(..., errors="raise")` attempts that
succeeds wins; the loop succeeds iff some attempt does. -/
def strictDatetimeOk (c : Column) : Bool :=
  c.dtStrictAttempts.any id

/-- `valid_count` after datetime coercion. -/
def dtValidCount (c : Column) : Nat :=
  c.cells.countP (fun cl => !cl.isNull && cl.datetimeOk)

/-- `success_rate` for the datetime path. -/
def dtSuccessRate (c : Column) : ℚ :=
  if 0 < c.cells.length then (dtValidCount c : ℚ) / (c.cells.length : ℚ) else 0

/-- After `_process_float_conversion` ran on the working copy, is
`converted_df[column]` numeric?  True when the original dtype was
already numeric or when the float pass wrote a fully or partially
converted series into the working copy. -/
def convertedIsNumeric (c : Column) : Bool :=
  c.isNumericDtype || decide (floatClass c = some FloatCat.convertible) ||
    decide (floatClass c = some FloatCat.partConv)

/-- The four datetime categories of the conversion report. -/
inductive DtCat
  | convertible
  | partConv
  | unconvertible
  | alreadyDatetime
deriving DecidableEq, Repr

/-- `DataTypeConverter._process_datetime_conversion`, including the
guard of `find_and_convert_columns` (a column recorded as fully float
convertible is never submitted to datetime processing at all): already
datetime columns are recorded and skipped; columns that are numeric in
the working copy `return` without touching any datetime list; the
strict format loop yields convertible; otherwise coercion is tried with
threshold `success_rate >= 0.8 and valid_count > 0`. -/
def dtClass (c : Column) : Option DtCat :=
  if floatClass c = some FloatCat.convertible then none
  else if c.isDatetimeDtype then some DtCat.alreadyDatetime
  else if convertedIsNumeric c then none
  else if strictDatetimeOk c then some DtCat.convertible
  else if c.toDatetimeCoerceRaises then some DtCat.unconvertible
  else if 8/10 ≤ dtSuccessRate c ∧ 0 < dtValidCount c then some DtCat.partConv
  else some DtCat.unconvertible

/-- The list-valued entries of the conversion report of
`find_and_convert_columns` (for the two dict-valued partial lists only
the keys are modelled; their per-column success-rate payloads are
`floatSuccessRate` / `dtSuccessRate` above).  Field names follow the
source keys, with `partConv` for "partially_convertible". -/
structure ConversionReport where
  convertible_float_columns : List String
  partConv_float_columns : List String
  unconvertible_float_columns : List String
  already_float_columns : List String
  convertible_datetime_columns : List String
  partConv_datetime_columns : List String
  unconvertible_datetime_columns : List String
  already_datetime_columns : List String
  total_columns_processed : Nat
deriving DecidableEq, Repr

/-- `DataTypeConverter.find_and_convert_columns`: every column is
processed in order and its name appended to the list of its float
category and of its datetime category (when it has one), so each report
list is the name image of filtering the columns by class. -/
def find_and_convert_columns (df : List Column) : ConversionReport :=
  ⟨(df.filter (fun c => decide (floatClass c = some FloatCat.convertible))).map Column.name,
   (df.filter (fun c => decide (floatClass c = some FloatCat.partConv))).map Column.name,
   (df.filter (fun c => decide (floatClass c = some FloatCat.unconvertible))).map Column.name,
   (df.filter (fun c => decide (floatClass c = some FloatCat.alreadyFloat))).map Column.name,
   (df.filter (fun c => decide (dtClass c = some DtCat.convertible))).map Column.name,
   (df.filter (fun c => decide (dtClass c = some DtCat.partConv))).map Column.name,
   (df.filter (fun c => decide (dtClass c = some DtCat.unconvertible))).map Column.name,
   (df.filter (fun c => decide (dtClass c = some DtCat.alreadyDatetime))).map Column.name,
   df.length⟩

/-- In how many of the four float lists of the report does `name`
occur? -/
def floatMembershipCount (r : ConversionReport) (name : String) : Nat :=
  (if name ∈ r.convertible_float_columns then 1 else 0) +
  (if name ∈ r.partConv_float_columns then 1 else 0) +
  (if name ∈ r.unconvertible_float_columns then 1 else 0) +
  (if name ∈ r.already_float_columns then 1 else 0)

/-- In how many of the four datetime lists of the report does `name`
occur? -/
def dtMembershipCount (r : ConversionReport) (name : String) : Nat :=
  (if name ∈ r.convertible_datetime_columns then 1 else 0) +
  (if name ∈ r.partConv_datetime_columns then 1 else 0) +
  (if name ∈ r.unconvertible_datetime_columns then 1 else 0) +
  (if name ∈ r.already_datetime_columns then 1 else 0)

/-- Membership of a column's name in a filtered name list, under
name-uniqueness of the DataFrame's columns. -/
theorem name_mem_filter_map (p : Column → Bool) {df : List Column}
    (hnd : (df.map Column.name).Nodup) {c : Column} (hc : c ∈ df) :
    (c.name ∈ (df.filter p).map Column.name) ↔ p c = true := by
  constructor
  · intro h
    obtain ⟨c2, hc2, hname⟩ := List.mem_map.mp h
    have hmem := (List.mem_filter.mp hc2).1
    have hp := (List.mem_filter.mp hc2).2
    have heq : c2 = c := List.inj_on_of_nodup_map hnd hmem hc hname
    exact heq ▸ hp
  · intro hp
    exact List.mem_map.mpr ⟨c, List.mem_filter.mpr ⟨hc, hp⟩, rfl⟩

/-- A well-formed column has no float category exactly when it is
datetime-typed. -/
theorem floatClass_eq_none_iff {c : Column} (hwf : c.WF) :
    floatClass c = none ↔ c.isDatetimeDtype = true := by
  obtain ⟨h1, h2⟩ := hwf
  unfold floatClass
  split_ifs with hf hd <;> simp_all

/-- A column has no datetime category exactly when it is not
datetime-typed and is numeric in the working copy after the float pass
(fully float-converted columns are among these). -/
theorem dtClass_eq_none_iff (c : Column) :
    dtClass c = none ↔ (c.isDatetimeDtype = false ∧ convertedIsNumeric c = true) := by
  have hdt : floatClass c = some FloatCat.convertible → c.isDatetimeDtype = false := by
    intro h
    unfold floatClass at h
    split_ifs at h <;> simp_all
  have hcn : floatClass c = some FloatCat.convertible → convertedIsNumeric c = true := by
    intro h
    simp [convertedIsNumeric, h]
  unfold dtClass
  split_ifs with hconv hd hnum <;> simp_all

/-- When the float path reaches numeric coercion (not float dtype, not
datetime dtype, strict conversion failed, coercion does not raise), the
classification is decided by the 0.9-threshold test alone. -/
theorem floatClass_coerce (c : Column) (h1 : c.isFloatDtype = false)
    (h2 : c.isDatetimeDtype = false) (h3 : strictNumericOk c = false)
    (h4 : c.toNumericCoerceRaises = false) :
    floatClass c = if 9/10 ≤ floatSuccessRate c ∧ 0 < floatValidCount c
      then some FloatCat.partConv else some FloatCat.unconvertible := by
  unfold floatClass
  simp [h1, h2, h3, h4]

/-- When the datetime path reaches datetime coercion, the classification
is decided by the 0.8-threshold test alone. -/
theorem dtClass_coerce (c : Column) (h0 : floatClass c ≠ some FloatCat.convertible)
    (h1 : c.isDatetimeDtype = false) (h2 : convertedIsNumeric c = false)
    (h3 : strictDatetimeOk c = false) (h4 : c.toDatetimeCoerceRaises = false) :
    dtClass c = if 8/10 ≤ dtSuccessRate c ∧ 0 < dtValidCount c
      then some DtCat.partConv else some DtCat.unconvertible := by
  unfold dtClass
  simp [h0, h1, h2, h3, h4]

/-- A non-null cell that parses as numeric and not as datetime. -/
def numOkCell : Cell := ⟨false, true, false⟩

/-- A non-null cell that parses as datetime and not as numeric. -/
def dtOkCell : Cell := ⟨false, false, true⟩

/-- A non-null cell that parses as neither. -/
def badCell : Cell := ⟨false, false, false⟩

/-- An object column of 10 cells with exactly 90.0% numeric-parseable
values. -/
def col90 : Column :=
  ⟨"c90", false, false, false, false, List.replicate 12 false, false,
    List.replicate 9 numOkCell ++ [badCell]⟩

/-- An object column of 1000 cells with exactly 89.9% numeric-parseable
values. -/
def col899 : Column :=
  ⟨"c899", false, false, false, false, List.replicate 12 false, false,
    List.replicate 899 numOkCell ++ List.replicate 101 badCell⟩

/-- An object column of 5 cells with exactly 80.0% datetime-parseable
values. -/
def col80 : Column :=
  ⟨"c80", false, false, false, false, List.replicate 12 false, false,
    List.replicate 4 dtOkCell ++ [badCell]⟩

/-- An object column of 1000 cells with exactly 79.9% datetime-parseable
values. -/
def col799 : Column :=
  ⟨"c799", false, false, false, false, List.replicate 12 false, false,
    List.replicate 799 dtOkCell ++ List.replicate 201 badCell⟩

/-- A one-column DataFrame whose single column "price" already has float
dtype. -/
def floatOnlyCol : Column :=
  ⟨"price", true, false, true, false, List.replicate 12 false, false,
    [⟨false, true, false⟩]⟩

/-! ## Enhanced analysis (`analyzers/enhanced.py`) -/

/-- The entries of the per-column result mapping built inside the loop
of `EnhancedAnalyzer.check_id_uniqueness` (the up-to-10 example
duplicate values and their counts are not modelled; they do not bear on
any claim). -/
structure IdStats where
  total_count : Nat
  unique_count : Nat
  duplicate_count : Nat
  uniqueness_percentage : ℚ
  is_unique : Bool
  missing_count : Nat
  missing_percentage : ℚ
deriving DecidableEq, Repr

/-- The per-column body of `check_id_uniqueness` on one ID column,
modelled as a list of optional values: `total_count = len(series)`,
`unique_count = series.nunique()` (pandas `nunique` excludes nulls),
`duplicate_count = total_count - unique_count`,
`uniqueness_percentage = unique_count / total_count * 100`,
`is_unique = duplicate_count == 0`, plus missing stats. -/
def check_id_uniqueness_col (series : List (Option ℚ)) : IdStats :=
  let total_count := series.length
  let unique_count := (series.filterMap id).dedup.length
  let duplicate_count := total_count - unique_count
  ⟨total_count, unique_count, duplicate_count,
   ((unique_count : ℚ) / (total_count : ℚ)) * 100,
   decide (duplicate_count = 0),
   series.countP (fun c => c.isNone),
   ((series.countP (fun c => c.isNone) : ℚ) / (total_count : ℚ)) * 100⟩

/-- One cell of a column as `check_composite_id_uniqueness` observes it:
its stringification `text` (what `astype(str)` renders, e.g. "nan" for
a null) and whether it is null (for `isnull().any(axis=1)`). -/
structure CompCell where
  text : String
  isNull : Bool
deriving DecidableEq, Repr

/-- A DataFrame as the enhanced analyzer accesses it: named columns of
cells. -/
structure DataFrame where
  cols : List (String × List CompCell)
deriving DecidableEq, Repr

/-- `name in df.columns`. -/
def DataFrame.hasCol (df : DataFrame) (name : String) : Bool :=
  df.cols.any (fun p => decide (p.1 = name))

/-- `df[name]` (the empty list if absent; callers guard existence). -/
def DataFrame.getCol (df : DataFrame) (name : String) : List CompCell :=
  ((df.cols.find? (fun p => decide (p.1 = name))).map Prod.snd).getD []

/-- `df[id_cols].apply(lambda x: "||".join(x.astype(str)), axis=1)`:
select the ID columns, transpose to rows, join each row's stringified
cells with the "||" delimiter. -/
def compositeKeys (df : DataFrame) (id_cols : List String) : List String :=
  ((id_cols.map (fun c => (df.getCol c).map CompCell.text)).transpose).map
    (fun row => String.intercalate "||" row)

/-- `df[id_cols].isnull().any(axis=1).sum()`: the number of rows with a
null in at least one of the ID columns. -/
def compositeMissingCount (df : DataFrame) (id_cols : List String) : Nat :=
  ((id_cols.map (fun c => (df.getCol c).map CompCell.isNull)).transpose).countP
    (fun row => row.any id)

/-- The result of `check_composite_id_uniqueness`: the error mapping
`{"error": msg}` or the statistics mapping (duplicate-key examples are
not modelled). -/
inductive CompositeResult
  | errorResult (msg : String)
  | statsResult (composite_columns : List String)
      (total_count unique_count duplicate_count : Nat)
      (uniqueness_percentage : ℚ) (is_unique : Bool) (missing_count : Nat)
deriving DecidableEq, Repr

/-- `EnhancedAnalyzer.check_composite_id_uniqueness`:
`if not id_cols or len(id_cols) < 2` return the error mapping; if some
requested column is absent return the columns-not-found error mapping;
otherwise build the composite key rows and apply the single-column
uniqueness logic.  The result is wrapped in `Except`: the statistics
branch divides by `total_count` with plain Python numbers at
`uniqueness_percentage = (unique_count / total_count) * 100`
(enhanced.py line 231), so on a DataFrame with zero rows it raises
`ZeroDivisionError` rather than returning any mapping — modelled as
`Except.error`; both returned mappings are `Except.ok`. -/
def check_composite_id_uniqueness (df : DataFrame) (id_cols : List String) :
    Except String CompositeResult :=
  if id_cols.length < 2 then
    Except.ok (CompositeResult.errorResult "Composite ID requires at least 2 columns")
  else if id_cols.filter (fun c => !df.hasCol c) = [] then
    if (compositeKeys df id_cols).length = 0 then
      Except.error "ZeroDivisionError: division by zero"
    else
      Except.ok (CompositeResult.statsResult id_cols
        (compositeKeys df id_cols).length
        (compositeKeys df id_cols).dedup.length
        ((compositeKeys df id_cols).length - (compositeKeys df id_cols).dedup.length)
        ((((compositeKeys df id_cols).dedup.length : ℚ) /
          ((compositeKeys df id_cols).length : ℚ)) * 100)
        (decide ((compositeKeys df id_cols).length -
          (compositeKeys df id_cols).dedup.length = 0))
        (compositeMissingCount df id_cols))
  else
    Except.ok (CompositeResult.errorResult "Columns not found")

/-! ## Per-column orchestration (`profiler.py`) -/

/-- The outcome of one type-specific analysis or recommendation call as
`_analyze_column` observes it: `Except.error msg` stands for a raised
exception; the successful payloads (the statistics mappings and
recommendation lists, whose contents the failure-boundary claim does
not inspect) are abstracted to `Unit` / `List String`. -/
structure ColumnRun where
  nullFlags : List Bool
  isNumericDtype : Bool
  isObjectDtype : Bool
  isDatetimeDtype : Bool
  inferOutcome : Except String String
  numericOutcome : Except String Unit
  categoricalOutcome : Except String Unit
  datetimeOutcome : Except String Unit
  numericRecsOutcome : Except String (List String)
  categoricalRecsOutcome : Except String (List String)
  datetimeRecsOutcome : Except String (List String)

/-- The column analysis `_analyze_column` assembles: a typed analysis
(type tag plus recommendations) or the minimal fallback mapping of the
`except` branch with `type: "error"`, `count`, `missing_count`,
`missing_percentage`, the error message and a single recommendation
string. -/
inductive ColumnAnalysis
  | typed (typeTag : String) (recommendations : List String)
  | errorFallback (count : Nat) (missing_count : Nat)
      (missing_percentage : ℚ) (errMsg : String) (recommendations : List String)
deriving DecidableEq, Repr

/-- The dispatch inside the try block of `_analyze_column`: numeric path
when the suggested type is "numeric" or the dtype is numeric, else
categorical path for "categorical"/"text"/object dtype, else datetime
path, else the categorical analyzer tagged "other" with no
recommendation call.  Each path runs the type-specific analyzer and
then the matching recommendation function; an exception in either
escapes this dispatch (to be caught by the `except` of
`analyze_column`). -/
def dispatch (c : ColumnRun) (suggested_type : String) :
    Except String (String × List String) :=
  if suggested_type = "numeric" ∨ c.isNumericDtype = true then do
    let _ ← c.numericOutcome
    let recs ← c.numericRecsOutcome
    Except.ok ("numeric", recs)
  else if suggested_type = "categorical" ∨ suggested_type = "text" ∨
      c.isObjectDtype = true then do
    let _ ← c.categoricalOutcome
    let recs ← c.categoricalRecsOutcome
    Except.ok ("categorical", recs)
  else if suggested_type = "datetime" ∨ c.isDatetimeDtype = true then do
    let _ ← c.datetimeOutcome
    let recs ← c.datetimeRecsOutcome
    Except.ok ("datetime", recs)
  else do
    let _ ← c.categoricalOutcome
    Except.ok ("other", [])

/-- `AutomatedDataProfiler._analyze_column`: `infer_column_type` runs
before the try block, so an exception there propagates to the caller;
the dispatch runs inside the try block, and an exception there is
turned into the minimal fallback analysis with
`count = len(series)`, `missing_count = series.isnull().sum()`,
`missing_percentage = missing_count / len(series) * 100`, the error
message, and the single recommendation `"Analysis failed: ..."`. -/
def analyze_column (c : ColumnRun) : Except String ColumnAnalysis :=
  match c.inferOutcome with
  | Except.error e => Except.error e
  | Except.ok suggested_type =>
    match dispatch c suggested_type with
    | Except.ok st => Except.ok (ColumnAnalysis.typed st.1 st.2)
    | Except.error e =>
      Except.ok (ColumnAnalysis.errorFallback
        c.nullFlags.length
        (c.nullFlags.countP id)
        (((c.nullFlags.countP id : ℚ) / (c.nullFlags.length : ℚ)) * 100)
        e
        ["Analysis failed: " ++ e])

/-- A column whose type inference raises. -/
def inferFailCol : ColumnRun :=
  ⟨[false], false, true, false, Except.error "boom", Except.ok (), Except.ok (),
   Except.ok (), Except.ok [], Except.ok [], Except.ok []⟩

/-- A column whose type inference succeeds with "numeric" but whose
numeric statistical analysis raises inside the try block. -/
def dispatchFailCol : ColumnRun :=
  ⟨[false, true], true, false, false, Except.ok "numeric",
   Except.error "stats boom", Except.ok (), Except.ok (),
   Except.ok [], Except.ok [], Except.ok []⟩

/-! ## Claim theorems for the recommendation engine and type inference -/

/-- C1: the claim says every DataFrame with fewer than 100 rows gets a
"collect more data" recommendation from `get_general_recommendations`.
The code never emits it: at the failing input (5 rows, 0 MB, 0 duplicate
rows) the returned list is empty, and in fact no input ever produces the
small-dataset recommendation, because the source assigns the strings in
the `len(df) < 100` branch without appending them. -/
theorem C1_small_dataset_rec_never_emitted :
    get_general_recommendations ⟨5, 0, 0⟩ = [] ∧
    ∀ df : DatasetView, GeneralRec.smallDataset ∉ get_general_recommendations df := by
  constructor
  · rfl
  · intro df
    unfold get_general_recommendations
    split_ifs <;> simp

/-- C5: with no `"error"` key in the analysis mapping,
`get_numeric_recommendations` emits the missing-value imputation
recommendation exactly once when `missing_percentage > 5` and not at
all otherwise. -/
theorem C5_missing_rec_iff_gt5 (a : NumericAnalysisView) (h : a.error = none) :
    (get_numeric_recommendations a).countP (· = NumericRec.highMissing) =
      if a.missing_percentage > 5 then 1 else 0 := by
  unfold get_numeric_recommendations
  rw [h]
  split_ifs <;>
    simp_all [List.countP_append, List.countP_cons, List.countP_nil]

/-- Witness for C5: `missing_percentage = 5.0` produces no missing-value
recommendation; `missing_percentage = 5.01` produces exactly one. -/
theorem C5_missing_rec_iff_gt5_witness :
    (get_numeric_recommendations ⟨none, 5, 0, 0, 0, true, 0⟩).countP
      (· = NumericRec.highMissing) = 0 ∧
    (get_numeric_recommendations ⟨none, 501/100, 0, 0, 0, true, 0⟩).countP
      (· = NumericRec.highMissing) = 1 := by
  have h1 := C5_missing_rec_iff_gt5 ⟨none, 5, 0, 0, 0, true, 0⟩ rfl
  have h2 := C5_missing_rec_iff_gt5 ⟨none, 501/100, 0, 0, 0, true, 0⟩ rfl
  refine ⟨?_, ?_⟩
  · rw [h1]; norm_num
  · rw [h2]; norm_num

/-- C6: the suggested type is resolved in priority order: pattern name if
the best-pattern score exceeds 0.8, else numeric for integer/floating,
else datetime for datetime64, else boolean, else categorical, else
text. -/
theorem C6_suggested_type_priority (pt bp : String) (conf : ℚ) :
    (conf > 8/10 → determine_suggested_type pt bp conf = bp) ∧
    (¬ conf > 8/10 → (pt = "integer" ∨ pt = "floating") →
      determine_suggested_type pt bp conf = "numeric") ∧
    (¬ conf > 8/10 → ¬(pt = "integer" ∨ pt = "floating") → pt = "datetime64" →
      determine_suggested_type pt bp conf = "datetime") ∧
    (¬ conf > 8/10 → ¬(pt = "integer" ∨ pt = "floating") → pt ≠ "datetime64" →
      pt = "boolean" → determine_suggested_type pt bp conf = "boolean") ∧
    (¬ conf > 8/10 → ¬(pt = "integer" ∨ pt = "floating") → pt ≠ "datetime64" →
      pt ≠ "boolean" → pt = "categorical" →
      determine_suggested_type pt bp conf = "categorical") ∧
    (¬ conf > 8/10 → ¬(pt = "integer" ∨ pt = "floating") → pt ≠ "datetime64" →
      pt ≠ "boolean" → pt ≠ "categorical" →
      determine_suggested_type pt bp conf = "text") := by
  refine ⟨?_, ?_, ?_, ?_, ?_, ?_⟩ <;>
    intros <;> simp_all [determine_suggested_type]

/-- Witness for C6: with confidence 1 the pattern name wins; with
confidence 1/2 an integer column resolves to numeric. -/
theorem C6_suggested_type_priority_witness :
    determine_suggested_type "integer" "email" 1 = "email" ∧
    determine_suggested_type "integer" "email" (1/2) = "numeric" := by
  refine ⟨(C6_suggested_type_priority "integer" "email" 1).1 (by norm_num),
    (C6_suggested_type_priority "integer" "email" (1/2)).2.1 (by norm_num) (Or.inl rfl)⟩

/-- C7: for a series of length N, numeric and datetime analyses that do
not return the error marker satisfy `missing_count + count = N` (count
excludes nulls), while the categorical analysis always has `count = N`
(count includes nulls), so there `missing_count + count = N` fails as
soon as `missing_count > 0`. -/
theorem C7_count_missing_invariant :
    (∀ (s : List (Option ℚ)) (st : CountStats), analyze_numeric s = Except.ok st →
      st.missing_count + st.count = s.length) ∧
    (∀ (s : List (Option ℚ)) (st : CountStats), analyze_datetime s = Except.ok st →
      st.missing_count + st.count = s.length) ∧
    (∀ s : List (Option String), (analyze_categorical s).count = s.length) ∧
    (∀ s : List (Option String), (analyze_categorical s).missing_count > 0 →
      (analyze_categorical s).missing_count + (analyze_categorical s).count ≠
        s.length) := by
  refine ⟨?_, ?_, ?_, ?_⟩
  · intro s st h
    simp only [analyze_numeric] at h
    split at h
    · exact Except.noConfusion h
    · cases h
      simpa using countP_none_add_length_filterMap s
  · intro s st h
    simp only [analyze_datetime] at h
    split at h
    · exact Except.noConfusion h
    · cases h
      simpa using countP_none_add_length_filterMap s
  · intro s
    rfl
  · intro s hmiss
    have hc : (analyze_categorical s).count = s.length := rfl
    omega

/-- Witness for C7: evaluation on the concrete series
`[some 1, none, some 2]` (numeric/datetime) and
`[some "a", none, some "b"]` (categorical). -/
theorem C7_count_missing_invariant_witness :
    (analyze_numeric [some 1, none, some 2] =
      Except.ok ⟨2, 1, 100/3⟩ ∧ 1 + 2 = 3) ∧
    (analyze_datetime [some 1, none, some 2] =
      Except.ok ⟨2, 1, 100/3⟩ ∧ 1 + 2 = 3) ∧
    (analyze_categorical [some "a", none, some "b"]).count = 3 ∧
    (analyze_categorical [some "a", none, some "b"]).missing_count +
      (analyze_categorical [some "a", none, some "b"]).count ≠ 3 := by
  have hnum : analyze_numeric [some 1, none, some 2] = Except.ok ⟨2, 1, 100/3⟩ := by
    simp [analyze_numeric, List.filterMap_cons, List.countP_cons]
    norm_num
  have hdt : analyze_datetime [some 1, none, some 2] = Except.ok ⟨2, 1, 100/3⟩ := by
    simp [analyze_datetime, List.filterMap_cons, List.countP_cons]
    norm_num
  refine ⟨⟨hnum, ?_⟩, ⟨hdt, ?_⟩,
    C7_count_missing_invariant.2.2.1 [some "a", none, some "b"], ?_⟩
  · exact C7_count_missing_invariant.1 [some 1, none, some 2] ⟨2, 1, 100/3⟩ hnum
  · exact C7_count_missing_invariant.2.1 [some 1, none, some 2] ⟨2, 1, 100/3⟩ hdt
  · exact C7_count_missing_invariant.2.2.2 [some "a", none, some "b"] (by decide)

/-- C8: shrinking the z-score threshold never decreases the z-score
outlier count: for `t1 ≥ t2 > 0` on a fixed series, the count at `t2`
is at least the count at `t1`. -/
theorem C8_zscore_outlier_monotone (series : List ℚ) (t1 t2 : ℚ)
    (h2 : 0 < t2) (h12 : t2 ≤ t1) :
    zscore_outlier_count series t1 ≤ zscore_outlier_count series t2 := by
  unfold zscore_outlier_count
  apply List.countP_mono_left
  intro x hx hpx
  simp only [decide_eq_true_eq] at hpx ⊢
  have hσ2 : (0:ℚ) ≤ (series.map (fun x => (x - series.sum / series.length) ^ 2)).sum /
      series.length := by
    apply div_nonneg
    · apply List.sum_nonneg
      intro y hy
      obtain ⟨z, _, rfl⟩ := List.mem_map.mp hy
      positivity
    · positivity
  have htt : t2 ^ 2 ≤ t1 ^ 2 := by nlinarith
  have hmul := mul_le_mul_of_nonneg_right htt hσ2
  linarith

/-- Witness for C8: on the concrete series `[1, 2, 100]`, moving the
threshold from 3 down to 2 does not decrease the outlier count. -/
theorem C8_zscore_outlier_monotone_witness :
    (0:ℚ) < 2 ∧ (2:ℚ) ≤ 3 ∧
    zscore_outlier_count [1, 2, 100] 3 ≤ zscore_outlier_count [1, 2, 100] 2 :=
  ⟨by norm_num, by norm_num,
    C8_zscore_outlier_monotone [1, 2, 100] 3 2 (by norm_num) (by norm_num)⟩

/-- C2 counterexample: for the one-column DataFrame `[floatOnlyCol]`,
`find_and_convert_columns` puts "price" in `already_float_columns` but
in none of the four datetime lists, so the column is omitted from the
datetime partition — refuting the claim that every column appears in
exactly one datetime category. -/
theorem C2_partition_counterexample :
    "price" ∈ (find_and_convert_columns [floatOnlyCol]).already_float_columns ∧
    dtMembershipCount (find_and_convert_columns [floatOnlyCol]) "price" = 0 := by
  decide

/-- C2 amended: over a DataFrame with distinct column names, every
well-formed column appears in at most one float category and at most
one datetime category; it is omitted from the float partition exactly
when it already has datetime dtype, and omitted from the datetime
partition exactly when it is numeric in the working copy after the
float pass (native numeric dtype, or fully or partially converted to
float) while not being datetime-typed; in every other case it appears
in exactly one category of the partition. -/
theorem C2_partition_amended (df : List Column) (hnd : (df.map Column.name).Nodup)
    {c : Column} (hc : c ∈ df) (hwf : c.WF) :
    floatMembershipCount (find_and_convert_columns df) c.name =
      (if c.isDatetimeDtype = true then 0 else 1) ∧
    dtMembershipCount (find_and_convert_columns df) c.name =
      (if c.isDatetimeDtype = false ∧ convertedIsNumeric c = true then 0 else 1) := by
  constructor
  · simp only [floatMembershipCount, find_and_convert_columns,
      name_mem_filter_map _ hnd hc, decide_eq_true_eq]
    rcases hfc : floatClass c with _ | k
    · rw [if_pos ((floatClass_eq_none_iff hwf).mp hfc)]
      simp [hfc]
    · have hdt : ¬ c.isDatetimeDtype = true := by
        intro hd
        rw [(floatClass_eq_none_iff hwf).mpr hd] at hfc
        exact Option.noConfusion hfc
      rw [if_neg hdt]
      cases k <;> simp [hfc]
  · simp only [dtMembershipCount, find_and_convert_columns,
      name_mem_filter_map _ hnd hc, decide_eq_true_eq]
    rcases hdc : dtClass c with _ | k
    · rw [if_pos ((dtClass_eq_none_iff c).mp hdc)]
      simp [hdc]
    · have hcond : ¬ (c.isDatetimeDtype = false ∧ convertedIsNumeric c = true) := by
        intro hcontra
        rw [(dtClass_eq_none_iff c).mpr hcontra] at hdc
        exact Option.noConfusion hdc
      rw [if_neg hcond]
      cases k <;> simp [hdc]

/-- Witness for the amended C2, at the one-column DataFrame
`[floatOnlyCol]`: exactly one float category, zero datetime
categories. -/
theorem C2_partition_amended_witness :
    floatMembershipCount (find_and_convert_columns [floatOnlyCol]) "price" = 1 ∧
    dtMembershipCount (find_and_convert_columns [floatOnlyCol]) "price" = 0 := by
  have h := C2_partition_amended [floatOnlyCol] (by decide)
    (List.mem_singleton.mpr rfl) (by decide)
  have h1 := h.1
  have h2 := h.2
  rw [if_neg (by decide)] at h1
  rw [if_pos (by decide)] at h2
  exact ⟨h1, h2⟩

/-- C4: in the coerced float path a column is partially convertible iff
its valid fraction is at least 0.9 with at least one converted value;
the datetime path is the same with threshold 0.8; and the boundaries
hold: exactly 90.0% (9 of 10) is accepted while 89.9% (899 of 1000) is
rejected for float, exactly 80.0% (4 of 5) is accepted while 79.9%
(799 of 1000) is rejected for datetime. -/
theorem C4_partial_threshold_boundaries :
    (∀ c : Column, c.isFloatDtype = false → c.isDatetimeDtype = false →
      strictNumericOk c = false → c.toNumericCoerceRaises = false →
      (floatClass c = some FloatCat.partConv ↔
        9/10 ≤ floatSuccessRate c ∧ 0 < floatValidCount c)) ∧
    (∀ c : Column, floatClass c ≠ some FloatCat.convertible →
      c.isDatetimeDtype = false → convertedIsNumeric c = false →
      strictDatetimeOk c = false → c.toDatetimeCoerceRaises = false →
      (dtClass c = some DtCat.partConv ↔
        8/10 ≤ dtSuccessRate c ∧ 0 < dtValidCount c)) ∧
    floatClass col90 = some FloatCat.partConv ∧
    floatClass col899 = some FloatCat.unconvertible ∧
    dtClass col80 = some DtCat.partConv ∧
    dtClass col799 = some DtCat.unconvertible := by
  have hf90 : floatSuccessRate col90 = 9/10 := by
    have hvc : floatValidCount col90 = 9 := by decide
    have hlen : col90.cells.length = 10 := by decide
    rw [floatSuccessRate, hvc, hlen]
    norm_num
  have hf899 : floatSuccessRate col899 = 899/1000 := by
    have hvc : floatValidCount col899 = 899 := by decide
    have hlen : col899.cells.length = 1000 := by decide
    rw [floatSuccessRate, hvc, hlen]
    norm_num
  have hd80 : dtSuccessRate col80 = 8/10 := by
    have hvc : dtValidCount col80 = 4 := by decide
    have hlen : col80.cells.length = 5 := by decide
    rw [dtSuccessRate, hvc, hlen]
    norm_num
  have hd799 : dtSuccessRate col799 = 799/1000 := by
    have hvc : dtValidCount col799 = 799 := by decide
    have hlen : col799.cells.length = 1000 := by decide
    rw [dtSuccessRate, hvc, hlen]
    norm_num
  have hfc80 : floatClass col80 = some FloatCat.unconvertible := by
    rw [floatClass_coerce col80 rfl rfl (by decide) rfl, if_neg]
    have hvc0 : floatValidCount col80 = 0 := by decide
    simp [hvc0]
  have hcn80 : convertedIsNumeric col80 = false := by
    unfold convertedIsNumeric
    rw [hfc80]
    rfl
  have hfc799 : floatClass col799 = some FloatCat.unconvertible := by
    rw [floatClass_coerce col799 rfl rfl (by decide) rfl, if_neg]
    have hvc0 : floatValidCount col799 = 0 := by decide
    simp [hvc0]
  have hcn799 : convertedIsNumeric col799 = false := by
    unfold convertedIsNumeric
    rw [hfc799]
    rfl
  refine ⟨?_, ?_, ?_, ?_, ?_, ?_⟩
  · intro c h1 h2 h3 h4
    rw [floatClass_coerce c h1 h2 h3 h4]
    split_ifs with h
    · simp [h]
    · simp [h]
  · intro c h0 h1 h2 h3 h4
    rw [dtClass_coerce c h0 h1 h2 h3 h4]
    split_ifs with h
    · simp [h]
    · simp [h]
  · rw [floatClass_coerce col90 rfl rfl (by decide) rfl, hf90, if_pos]
    exact ⟨le_refl _, by decide⟩
  · rw [floatClass_coerce col899 rfl rfl (by decide) rfl, hf899, if_neg]
    norm_num
  · rw [dtClass_coerce col80 (by rw [hfc80]; simp)
      rfl hcn80 (by decide) rfl, hd80, if_pos]
    exact ⟨le_refl _, by decide⟩
  · rw [dtClass_coerce col799 (by rw [hfc799]; simp)
      rfl hcn799 (by decide) rfl, hd799, if_neg]
    norm_num

/-- Witness for C4: both iff directions applied at the boundary columns
`col90` and `col80`. -/
theorem C4_partial_threshold_boundaries_witness :
    floatClass col90 = some FloatCat.partConv ∧
    dtClass col80 = some DtCat.partConv := by
  have hmain := C4_partial_threshold_boundaries
  have hf90 : floatSuccessRate col90 = 9/10 := by
    have hvc : floatValidCount col90 = 9 := by decide
    have hlen : col90.cells.length = 10 := by decide
    rw [floatSuccessRate, hvc, hlen]
    norm_num
  have hd80 : dtSuccessRate col80 = 8/10 := by
    have hvc : dtValidCount col80 = 4 := by decide
    have hlen : col80.cells.length = 5 := by decide
    rw [dtSuccessRate, hvc, hlen]
    norm_num
  have hfc : floatClass col80 = some FloatCat.unconvertible := by
    rw [floatClass_coerce col80 rfl rfl (by decide) rfl, if_neg]
    have hvc0 : floatValidCount col80 = 0 := by decide
    simp [hvc0]
  have hcn : convertedIsNumeric col80 = false := by
    unfold convertedIsNumeric
    rw [hfc]
    rfl
  refine ⟨(hmain.1 col90 rfl rfl (by decide) rfl).mpr ⟨by rw [hf90], by decide⟩, ?_⟩
  exact (hmain.2.1 col80 (by rw [hfc]; simp) rfl hcn (by decide) rfl).mpr
    ⟨by rw [hd80], by decide⟩

/-- C3 counterexample: the claim says an exception anywhere in the
per-column analysis — type inference included — yields the fallback
mapping.  But `infer_column_type` is called before the try block
(profiler.py line 169), so on `inferFailCol`, whose type inference
raises "boom", `_analyze_column` propagates the exception and returns
no analysis at all. -/
theorem C3_infer_exception_propagates :
    analyze_column inferFailCol = Except.error "boom" ∧
    ∀ a : ColumnAnalysis, analyze_column inferFailCol ≠ Except.ok a := by
  constructor
  · rfl
  · intro a h
    rw [show analyze_column inferFailCol = Except.error "boom" from rfl] at h
    exact Except.noConfusion h

/-- C3 amended: if type inference itself succeeds, then any exception
raised during the type-specific statistical dispatch or recommendation
generation is caught, and `_analyze_column` returns the minimal
fallback mapping (type "error", count, missing count/percentage, the
error message, one recommendation string) instead of propagating. -/
theorem C3_dispatch_exception_contained (c : ColumnRun) (st e : String)
    (hinfer : c.inferOutcome = Except.ok st)
    (hdisp : dispatch c st = Except.error e) :
    analyze_column c = Except.ok (ColumnAnalysis.errorFallback
      c.nullFlags.length (c.nullFlags.countP id)
      (((c.nullFlags.countP id : ℚ) / (c.nullFlags.length : ℚ)) * 100)
      e ["Analysis failed: " ++ e]) ∧
    ∀ msg, analyze_column c ≠ Except.error msg := by
  have hres : analyze_column c = Except.ok (ColumnAnalysis.errorFallback
      c.nullFlags.length (c.nullFlags.countP id)
      (((c.nullFlags.countP id : ℚ) / (c.nullFlags.length : ℚ)) * 100)
      e ["Analysis failed: " ++ e]) := by
    unfold analyze_column
    rw [hinfer]
    simp only [hdisp]
  refine ⟨hres, ?_⟩
  intro msg h
  rw [hres] at h
  exact Except.noConfusion h

/-- Witness for the amended C3, at the concrete column
`dispatchFailCol` whose numeric analysis raises "stats boom" after a
successful type inference. -/
theorem C3_dispatch_exception_contained_witness :
    (analyze_column dispatchFailCol = Except.ok (ColumnAnalysis.errorFallback
      dispatchFailCol.nullFlags.length (dispatchFailCol.nullFlags.countP id)
      (((dispatchFailCol.nullFlags.countP id : ℚ) /
        (dispatchFailCol.nullFlags.length : ℚ)) * 100)
      "stats boom" ["Analysis failed: " ++ "stats boom"]) ∧
    ∀ msg, analyze_column dispatchFailCol ≠ Except.error msg) :=
  C3_dispatch_exception_contained dispatchFailCol "numeric" "stats boom" rfl rfl

/-- A two-column DataFrame with rows (1,"x"), (1,"x"), (1,"y"). -/
def sampleDF : DataFrame :=
  ⟨[("a", [⟨"1", false⟩, ⟨"1", false⟩, ⟨"1", false⟩]),
    ("b", [⟨"x", false⟩, ⟨"x", false⟩, ⟨"y", false⟩])]⟩

/-- A two-column DataFrame with zero rows. -/
def emptyDF : DataFrame := ⟨[("a", []), ("b", [])]⟩

/-- C9 counterexample: on the zero-row DataFrame `emptyDF`, whose two
requested ID columns both exist, `check_composite_id_uniqueness`
raises ZeroDivisionError at `(unique_count / total_count) * 100`
instead of returning the uniqueness statistics mapping — refuting the
claim's "with 2 or more existing columns it returns the uniqueness
statistics mapping". -/
theorem C9_composite_counterexample :
    2 ≤ (["a", "b"] : List String).length ∧
    (∀ c ∈ (["a", "b"] : List String), emptyDF.hasCol c = true) ∧
    check_composite_id_uniqueness emptyDF ["a", "b"] =
      Except.error "ZeroDivisionError: division by zero" := by
  refine ⟨by decide, by decide, ?_⟩
  rfl

/-- C9 amended: with fewer than two ID columns
`check_composite_id_uniqueness` returns the error mapping, never
raising; with two or more existing ID columns it returns the
uniqueness statistics mapping provided the DataFrame has at least one
row, while on a zero-row DataFrame it raises (ZeroDivisionError from
the uniqueness-percentage division) instead of returning a mapping. -/
theorem C9_composite_requires_two_columns (df : DataFrame) (id_cols : List String) :
    (id_cols.length ≤ 1 → ∃ msg, check_composite_id_uniqueness df id_cols =
      Except.ok (CompositeResult.errorResult msg)) ∧
    (2 ≤ id_cols.length → (∀ c ∈ id_cols, df.hasCol c = true) →
      0 < (compositeKeys df id_cols).length →
      ∃ cols total uniq dup pct isuniq miss,
        check_composite_id_uniqueness df id_cols =
          Except.ok (CompositeResult.statsResult cols total uniq dup pct isuniq miss)) ∧
    (2 ≤ id_cols.length → (∀ c ∈ id_cols, df.hasCol c = true) →
      (compositeKeys df id_cols).length = 0 →
      ∃ msg, check_composite_id_uniqueness df id_cols = Except.error msg) := by
  have hmcOf : (∀ c ∈ id_cols, df.hasCol c = true) →
      id_cols.filter (fun c => !df.hasCol c) = [] := by
    intro hall
    rw [List.filter_eq_nil_iff]
    intro c hc
    simp [hall c hc]
  refine ⟨?_, ?_, ?_⟩
  · intro hlen
    refine ⟨"Composite ID requires at least 2 columns", ?_⟩
    unfold check_composite_id_uniqueness
    rw [if_pos (by omega)]
  · intro hlen hall hrows
    unfold check_composite_id_uniqueness
    rw [if_neg (by omega), if_pos (hmcOf hall), if_neg (by omega)]
    exact ⟨_, _, _, _, _, _, _, rfl⟩
  · intro hlen hall hrows
    refine ⟨"ZeroDivisionError: division by zero", ?_⟩
    unfold check_composite_id_uniqueness
    rw [if_neg (by omega), if_pos (hmcOf hall), if_pos hrows]

/-- Witness for the amended C9: a single-column request on `sampleDF`
returns the error mapping; the two-column request on the three-row
`sampleDF` returns the statistics mapping; the two-column request on
the zero-row `emptyDF` raises. -/
theorem C9_composite_requires_two_columns_witness :
    (∃ msg, check_composite_id_uniqueness sampleDF ["a"] =
      Except.ok (CompositeResult.errorResult msg)) ∧
    (∃ cols total uniq dup pct isuniq miss,
      check_composite_id_uniqueness sampleDF ["a", "b"] =
        Except.ok (CompositeResult.statsResult cols total uniq dup pct isuniq miss)) ∧
    (∃ msg, check_composite_id_uniqueness emptyDF ["a", "b"] = Except.error msg) :=
  ⟨(C9_composite_requires_two_columns sampleDF ["a"]).1 (by decide),
   (C9_composite_requires_two_columns sampleDF ["a", "b"]).2.1 (by decide) (by decide)
     (by decide),
   (C9_composite_requires_two_columns emptyDF ["a", "b"]).2.2 (by decide) (by decide)
     (by decide)⟩

/-- C10: on an ID column with at least one null and pairwise-distinct
non-null values, `check_id_uniqueness` reports `duplicate_count > 0`
and `is_unique = False`, because `duplicate_count = total_count -
series.nunique()` and `nunique` excludes nulls; indeed the reported
duplicate count is exactly the number of null entries. -/
theorem C10_nulls_count_as_duplicates (series : List (Option ℚ))
    (hnull : none ∈ series) (hnodup : (series.filterMap id).Nodup) :
    0 < (check_id_uniqueness_col series).duplicate_count ∧
    (check_id_uniqueness_col series).is_unique = false ∧
    (check_id_uniqueness_col series).duplicate_count =
      series.countP (fun c => c.isNone) := by
  have hded : (series.filterMap id).dedup = series.filterMap id :=
    List.Nodup.dedup hnodup
  have hlen := countP_none_add_length_filterMap series
  have hpos : 0 < series.countP (fun c => c.isNone) :=
    List.countP_pos_iff.mpr ⟨none, hnull, rfl⟩
  have hdup : (check_id_uniqueness_col series).duplicate_count =
      series.countP (fun c => c.isNone) := by
    show series.length - (series.filterMap id).dedup.length = _
    rw [hded]
    omega
  refine ⟨by rw [hdup]; exact hpos, ?_, hdup⟩
  show decide (series.length - (series.filterMap id).dedup.length = 0) = false
  rw [hded]
  simp only [decide_eq_false_iff_not]
  omega

/-- Witness for C10: the column `[1, 2, null]` has no repeated non-null
value, yet is reported with one duplicate and not unique. -/
theorem C10_nulls_count_as_duplicates_witness :
    0 < (check_id_uniqueness_col [some 1, some 2, none]).duplicate_count ∧
    (check_id_uniqueness_col [some 1, some 2, none]).is_unique = false ∧
    (check_id_uniqueness_col [some 1, some 2, none]).duplicate_count =
      List.countP (fun c => c.isNone) [some 1, some 2, none] :=
  C10_nulls_count_as_duplicates [some 1, some 2, none] (by decide) (by decide)

end Honeyclean
